import Mathlib

/-!
Verification development for the DetectMateService core: a shallow
embedding of the Manager command dispatch, the Engine worker loop and
lifecycle state machine, the Settings component-id derivation, the
ConfigManager, and the Service `reconfigure`/`stop` commands, with
theorems settling the specification claims against the code.
-/

namespace DetectMate

/-! ## Manager command dispatch (src/service/features/manager.py) -/

/-- Outcome of calling a Python handler: a returned string, or a raised
exception, tagged with whether the exception is a `TypeError` and
carrying its message. -/
inductive PyRes where
  | ok (r : String)
  | exc (isTypeError : Bool) (msg : String)
  deriving Repr, DecidableEq

/-- A decorated command handler: its behaviour when called with the full
command string, and when called with no argument. -/
structure Handler where
  withArg : String → PyRes
  noArg : PyRes

/-- Python `str.lower()` (over the ASCII range the commands use). -/
def pyLower (s : String) : String :=
  String.mk (s.data.map Char.toLower)

/-- The whitespace characters Python `str.strip()`/`str.split()`
recognize (ASCII range). -/
def pyIsWs (c : Char) : Bool :=
  c = ' ' || c = '\t' || c = '\n' || c = '\r' ||
    c = (Char.ofNat 11) || c = (Char.ofNat 12)

/-- Python `str.strip()`: drop leading and trailing whitespace. -/
def pyStrip (s : String) : String :=
  String.mk (((s.data.dropWhile pyIsWs).reverse.dropWhile pyIsWs).reverse)

/-- Model of `cmd.split(" ", 1)[0].lower()`: the substring before the first space,
lower-cased. -/
def pyVerb (cmd : String) : String :=
  pyLower (String.mk (cmd.data.takeWhile (fun c => c ≠ ' ')))

/-- Model of `Manager._handle_cmd`, instrumented with the number of times the
matched decorated handler is invoked.  Mirrors the source: a decorated
handler is tried with the full command string; a `TypeError` from that
call triggers a retry with no arguments; any other exception (including
one raised by the retry) becomes the reply `"error: <message>"`.  With
no handler registered under the verb, `ping` replies `"pong"` and
anything else replies `"unknown command: <cmd>"`. -/
def handleCmdCount (handlers : String → Option Handler) (cmd : String) :
    String × Nat :=
  let verb := pyVerb cmd
  match handlers verb with
  | some fn =>
    match fn.withArg cmd with
    | .ok r => (r, 1)
    | .exc true _ =>
      match fn.noArg with
      | .ok r => (r, 2)
      | .exc _ m => ("error: " ++ m, 2)
    | .exc false m => ("error: " ++ m, 1)
  | none =>
    if verb = "ping" then ("pong", 0)
    else ("unknown command: " ++ cmd, 0)

/-- The reply `Manager._handle_cmd` produces for `cmd`. -/
def handleCmd (handlers : String → Option Handler) (cmd : String) : String :=
  (handleCmdCount handlers cmd).1

/-- What reaches the manager worker in one iteration: a receive timeout,
a socket error, or a raw message (already decoded; UTF-8 decoding with
`errors="ignore"` cannot fail). -/
inductive MRecv where
  | timeout
  | nngErr
  | msg (raw : String)

/-- Observable outcome of one iteration of `Manager._command_loop`. -/
structure MStep where
  /-- the reply handed to `send`, if any -/
  reply : Option String
  /-- whether `_handle_cmd` was reached for this message -/
  dispatched : Bool
  /-- whether the loop breaks after this iteration -/
  breaks : Bool
  deriving Repr, DecidableEq

/-- One iteration of `Manager._command_loop`.  `stopSet` is the state of
the service lifecycle event, `sendFails` whether the reply send raises a
socket error.  A received command is trimmed; if the lifecycle event is
set and the trimmed command lower-cases to exactly `"stop"`, the message
is skipped with no reply; otherwise it is dispatched and the single
reply is sent. -/
def managerLoopStep (handlers : String → Option Handler) (stopSet : Bool)
    (sendFails : Bool) (ev : MRecv) : MStep :=
  match ev with
  | .timeout => ⟨none, false, false⟩
  | .nngErr => ⟨none, false, true⟩
  | .msg raw =>
    let cmd := pyStrip raw
    if stopSet && pyLower cmd == "stop" then
      ⟨none, false, false⟩
    else
      ⟨some (handleCmd handlers cmd), true, sendFails⟩

/-! ## Engine worker loop (src/service/features/engine.py, `_run_loop`) -/

/-- What the engine input socket delivers in one iteration: a receive
timeout, a socket error, or a payload (`recv` may also hand back `None`,
which the code checks for). -/
inductive ERecv where
  | timeout
  | nngErr
  | recvOk (raw : Option (List Nat))

/-- Outcome of invoking the processor on a payload: a result (possibly
`None`, meaning nothing to publish), a `ProcessorException`, or any
other exception. -/
inductive PRes where
  | pok (out : Option (List Nat))
  | procErr (msg : String)
  | otherErr (msg : String)

/-- Observable outcome of one iteration of `Engine._run_loop`. -/
structure EStep where
  /-- whether the processor was invoked on this iteration -/
  processorCalled : Bool
  /-- per configured output socket, in configuration order: `some b`
  if a send was attempted on it and succeeded iff `b` -/
  sends : List Bool
  /-- whether a reply send on the engine (pair) socket was attempted -/
  pairReply : Bool
  /-- whether the worker loop breaks after this iteration -/
  breaks : Bool
  deriving Repr, DecidableEq

/-- Model of `Engine._send_to_outputs`: iterate the output sockets in
configuration order; each send either succeeds or raises a socket
error, which is logged and the iteration continues with the next
output.  `outs` gives each socket's send success. -/
def sendToOutputs : List Bool → List Bool
  | [] => []
  | s :: rest => s :: sendToOutputs rest

/-- One iteration of `Engine._run_loop`, entered with the loop guard
(`_running` and stop latch unset) satisfied unless stated otherwise.
`running`/`stopSet` are consulted by the socket-error branch,
`proc` is the processor, `outs` the configured output sockets (send
success per socket), `pairSendOk` whether a reply-mode send on the
input socket succeeds. -/
def engineRunStep (running stopSet : Bool) (proc : List Nat → PRes)
    (outs : List Bool) (pairSendOk : Bool) (ev : ERecv) : EStep :=
  match ev with
  | .timeout => ⟨false, [], false, false⟩
  | .nngErr =>
    if !running || stopSet then ⟨false, [], false, true⟩
    else ⟨false, [], false, false⟩
  | .recvOk raw =>
    match raw with
    | none => ⟨false, [], false, false⟩
    | some bs =>
      if bs.length = 0 then ⟨false, [], false, false⟩
      else
        match proc bs with
        | .procErr _ => ⟨true, [], false, false⟩
        | .otherErr _ => ⟨true, [], false, false⟩
        | .pok none => ⟨true, [], false, false⟩
        | .pok (some _) =>
          if outs.isEmpty then
            -- backwards-compatible reply mode on the pair socket; a
            -- socket error there is logged and the loop continues,
            -- so the step never breaks whatever `pairSendOk` is
            ⟨true, [], true, false⟩
          else
            ⟨true, sendToOutputs outs, false, false⟩

/-! ## Engine lifecycle (src/service/features/engine.py, `start`/`stop`) -/

/-- The mutable lifecycle state of an `Engine`.  The worker
`threading.Thread` is created once in `__init__`; Python threads can be
started at most once, which `threadEverStarted` records. -/
structure EngineSt where
  running : Bool
  stopSet : Bool
  threadEverStarted : Bool
  threadAlive : Bool
  /-- how many times a worker thread was actually spawned -/
  workersSpawned : Nat
  inputClosed : Bool
  /-- per configured output socket: whether it has been closed -/
  outClosed : List Bool
  deriving Repr, DecidableEq

/-- A freshly constructed engine with `n` output sockets, before any
`start` (i.e. with `engine_autostart` disabled). -/
def initEngine (n : Nat) : EngineSt :=
  ⟨false, false, false, false, 0, false, List.replicate n false⟩

/-- Model of `threading.Thread.start`: spawns the thread the first time, raises
`RuntimeError("threads can only be started once")` on any later call. -/
def pyThreadStart (s : EngineSt) : Except String EngineSt :=
  if s.threadEverStarted then .error "threads can only be started once"
  else .ok { s with threadEverStarted := true, threadAlive := true,
                    workersSpawned := s.workersSpawned + 1 }

/-- Model of `Engine.start`: if not running, set `_running` and start the worker
thread (an exception from `Thread.start` propagates, after `_running`
has already been set); otherwise report already running. -/
def engineStart (s : EngineSt) : EngineSt × Except String String :=
  if !s.running then
    let s1 := { s with running := true }
    match pyThreadStart s1 with
    | .ok s2 => (s2, .ok "engine started")
    | .error e => (s1, .error e)
  else (s, .ok "engine already running")

/-- The exceptions `Engine.stop` can raise: the input-socket close
failure wrapping its cause, or the join failure wrapping the inner
message. -/
inductive EngineExc where
  | closeInput (cause : String)
  | joinFail (inner : String)
  deriving Repr, DecidableEq

/-- Rendering `str(e)` of an `EngineException`: the message it carries. -/
def EngineExc.message : EngineExc → String
  | .closeInput c => c
  | .joinFail m => m

/-- Environment for one `Engine.stop` call: whether closing the input
socket raises (and with what cause), which output-socket closes raise,
and whether the worker thread exits within the join timeout. -/
structure StopEnv where
  inputCloseFails : Bool
  inputCloseCause : String
  outCloseFails : Nat → Bool
  threadExits : Bool

/-- Closing every output socket from index `i` on: a close failure on
one output is logged and does not prevent closing the others. -/
def closeOutputsFrom (fails : Nat → Bool) (i : Nat) : List Bool → List Bool
  | [] => []
  | c :: rest => (c || !fails i) :: closeOutputsFrom fails (i + 1) rest

/-- Closing every output socket in order (the `for i, sock in
enumerate(...)` loop in `Engine.stop`). -/
def closeOutputs (fails : Nat → Bool) (closed : List Bool) : List Bool :=
  closeOutputsFrom fails 0 closed

/-- Model of `Engine.stop`: no-op if not running; otherwise clear `_running`,
set the stop latch, close the input socket (raising an
`EngineException` wrapping the cause on failure), close every output
socket, join the worker and raise if it is still alive after the
timeout (the inner `EngineException` is re-wrapped by the surrounding
`except`).  Returns the final state together with `None` or the raised
exception. -/
def engineStop (env : StopEnv) (s : EngineSt) :
    EngineSt × Except EngineExc Unit :=
  if !s.running then (s, .ok ())
  else
    let s1 := { s with running := false, stopSet := true }
    if env.inputCloseFails then
      (s1, .error (.closeInput ("Failed to close engine socket: " ++
        env.inputCloseCause)))
    else
      let s2 := { s1 with inputClosed := true }
      let s3 := { s2 with outClosed := closeOutputs env.outCloseFails s2.outClosed }
      let alive := s3.threadAlive && !env.threadExits
      let s4 := { s3 with threadAlive := alive }
      if alive then
        (s4, .error (.joinFail ("Failed to join engine thread: " ++
          "Engine thread failed to stop within timeout")))
      else (s4, .ok ())

/-! ## Service stop command (src/service/core.py, `Service.stop`) -/

/-- The service state relevant to the `stop` command: the lifecycle
event and the engine state. -/
structure ServiceSt where
  stopEventSet : Bool
  eng : EngineSt
  deriving Repr, DecidableEq

/-- Result of one `stop` command: new state, reply string, and whether
`Engine.stop` was invoked. -/
structure StopCmdRes where
  st : ServiceSt
  reply : String
  engineStopCalled : Bool
  deriving Repr, DecidableEq

/-- Model of `Service.stop` (the decorated `stop` command): if the lifecycle
event is already set, reply `"already stopping or stopped"` without
touching the engine; otherwise set the event, call `Engine.stop`, and
reply `"engine stopped"` or `"error: failed to stop engine - <e>"`. -/
def serviceStop (env : StopEnv) (st : ServiceSt) : StopCmdRes :=
  if st.stopEventSet then ⟨st, "already stopping or stopped", false⟩
  else
    let st1 := { st with stopEventSet := true }
    match engineStop env st1.eng with
    | (e', .ok ()) => ⟨{ st1 with eng := e' }, "engine stopped", true⟩
    | (e', .error ex) =>
      ⟨{ st1 with eng := e' },
       "error: failed to stop engine - " ++ ex.message, true⟩

/-! ## Settings component-id derivation (src/service/settings.py) -/

/-- The `ServiceSettings` fields feeding `_ensure_component_id`. -/
structure SettingsId where
  component_name : Option String
  component_id : Option String
  component_type : String
  manager_addr : Option String
  engine_addr : Option String
  deriving Repr, DecidableEq

/-- Python truthiness of an `Optional[str]`: `None` and `""` are falsy. -/
def pyTruthyOpt (o : Option String) : Bool :=
  match o with
  | none => false
  | some s => !s.isEmpty

/-- Python `x or ''` on an `Optional[str]`. -/
def orEmpty (o : Option String) : String := o.getD ""

/-- The string fed to `uuid5(NAMESPACE_URL, ·)` when the name rule
applies: `detectmate/<component_type>/<component_name>`. -/
def nameDerivation (s : SettingsId) : String :=
  "detectmate/" ++ s.component_type ++ "/" ++ orEmpty s.component_name

/-- The string fed to `uuid5(NAMESPACE_URL, ·)` when the address rule
applies: `detectmate/<component_type>|<manager_addr or ''>|<engine_addr or ''>`. -/
def addrDerivation (s : SettingsId) : String :=
  "detectmate/" ++ s.component_type ++ "|" ++ orEmpty s.manager_addr ++
    "|" ++ orEmpty s.engine_addr

/-- Model of `ServiceSettings._ensure_component_id`, parametric in the UUIDv5
hex digest `uuid5hex` (the `uuid` standard-library function, external
to the repository): keep a truthy explicit id; else derive from the
name if truthy; else derive from the addresses. -/
def ensureComponentId (uuid5hex : String → String) (s : SettingsId) :
    SettingsId :=
  if pyTruthyOpt s.component_id then s
  else if pyTruthyOpt s.component_name then
    { s with component_id := some (uuid5hex (nameDerivation s)) }
  else
    { s with component_id := some (uuid5hex (addrDerivation s)) }

/-! ## ConfigManager (src/service/features/config_manager.py) -/

/-- The in-memory state of a `ConfigManager` over abstract mapping type
`D` and validated-schema type `C`: an optional schema (as its
`model_validate` function, which either returns a validated value or
raises with a message) and the current parameters (validated value,
raw mapping, or absent). -/
structure CMState (D C : Type) where
  schema : Option (D → Except String C)
  configs : Option (Sum C D)

/-- Model of `ConfigManager.update`: with a schema, validate the new mapping and
replace the parameters only if validation succeeds — a validation
error propagates before the assignment runs; without a schema, store
the raw mapping.  Returns the state after the call and the outcome. -/
def cmUpdate {D C : Type} (st : CMState D C) (new : D) :
    CMState D C × Except String Unit :=
  match st.schema with
  | some validate =>
    match validate new with
    | .ok c => ({ st with configs := some (.inl c) }, .ok ())
    | .error e => (st, .error e)
  | none => ({ st with configs := some (.inr new) }, .ok ())

/-! ## Service reconfigure command (src/service/core.py, `reconfigure`) -/

/-- Python `str.split(maxsplit=n)` on a list of characters: skip leading
whitespace, emit up to `n` whitespace-delimited tokens, then the rest
of the string (leading whitespace stripped) as the final element. -/
def pySplitChars : Nat → List Char → List (List Char)
  | 0, l =>
    let r := l.dropWhile pyIsWs
    if r.isEmpty then [] else [r]
  | n + 1, l =>
    let r := l.dropWhile pyIsWs
    if r.isEmpty then []
    else
      let tok := r.takeWhile (fun c => !pyIsWs c)
      let rest := r.dropWhile (fun c => !pyIsWs c)
      tok :: pySplitChars n rest

/-- Python `s.split(maxsplit=n)`. -/
def pySplit (s : String) (n : Nat) : List String :=
  (pySplitChars n s.data).map (fun l => String.mk l)

/-- The payload/persist parsing step of `Service.reconfigure`:
`"reconfigure [persist] <json>"`.  Returns `(payload, persist)`. -/
def reconfParse (cmd : Option String) : String × Bool :=
  match cmd with
  | none => ("", false)
  | some c =>
    if c == "" then ("", false)
    else
      let parts := pySplit c 2
      if parts.length ≥ 2 then
        if pyLower ((parts.get? 1).getD "") == "persist" then
          (if parts.length > 2 then (parts.get? 2).getD "" else "", true)
        else
          ((pySplit c 1).get? 1 |>.getD "", false)
      else ("", false)

/-- Effects and reply of one `reconfigure` command. -/
structure ReconfRes (D C : Type) where
  cm : Option (CMState D C)
  reply : String
  updateCalledWith : Option D
  saveCalled : Bool

/-- Model of `Service.reconfigure`, parametric in the JSON parser `parseJson`
(the `json` standard-library module, external to the repository) and
in whether a `save` raises (`saveFails`, with the raised message).
`cm` is the optional `ConfigManager`; `cmd` the full command string the
dispatcher passes (or `None`).  Parses the optional literal `persist`
keyword and the JSON payload, calls `update`, then `save` only when
`persist` was given and `update` succeeded. -/
def reconfigure {D C : Type} (parseJson : String → Option D)
    (saveFails : Option String) (cm : Option (CMState D C))
    (cmd : Option String) : ReconfRes D C :=
  match cm with
  | none => ⟨none, "reconfigure: no config manager configured", none, false⟩
  | some st =>
    let payload := (reconfParse cmd).1
    let persist := (reconfParse cmd).2
    if payload == "" then
      ⟨some st, "reconfigure: no-op (no payload)", none, false⟩
    else
      match parseJson payload with
      | none => ⟨some st, "reconfigure: invalid JSON", none, false⟩
      | some data =>
        match cmUpdate st data with
        | (st', .ok ()) =>
          if persist then
            match saveFails with
            | some e => ⟨some st', "reconfigure: error - " ++ e, some data, true⟩
            | none => ⟨some st', "reconfigure: ok", some data, true⟩
          else ⟨some st', "reconfigure: ok", some data, false⟩
        | (st', .error e) =>
          ⟨some st', "reconfigure: error - " ++ e, some data, false⟩

/-! ## Helper lemmas -/

/-- The output-send iteration attempts every configured output, in
order, with each output's own outcome. -/
theorem sendToOutputs_eq (l : List Bool) : sendToOutputs l = l := by
  induction l with
  | nil => rfl
  | cons s rest ih => simp [sendToOutputs, ih]

theorem closeOutputsFrom_getElem? (f : Nat → Bool) :
    ∀ (l : List Bool) (j i : Nat),
      (closeOutputsFrom f j l)[i]? = (l[i]?).map (fun c => c || !f (j + i)) := by
  intro l
  induction l with
  | nil => intro j i; simp [closeOutputsFrom]
  | cons c rest ih =>
    intro j i
    cases i with
    | zero => simp [closeOutputsFrom]
    | succ i' =>
      simp only [closeOutputsFrom, List.getElem?_cons_succ]
      rw [ih (j + 1) i']
      have harith : j + 1 + i' = j + (i' + 1) := by omega
      rw [harith]

theorem closeOutputs_getElem? (f : Nat → Bool) (l : List Bool) (i : Nat) :
    (closeOutputs f l)[i]? = (l[i]?).map (fun c => c || !f i) := by
  have h := closeOutputsFrom_getElem? f l 0 i
  simpa [closeOutputs] using h

theorem closeOutputsFrom_length (f : Nat → Bool) :
    ∀ (l : List Bool) (j : Nat), (closeOutputsFrom f j l).length = l.length := by
  intro l
  induction l with
  | nil => intro j; rfl
  | cons c rest ih => intro j; simp [closeOutputsFrom, ih]

theorem closeOutputs_length (f : Nat → Bool) (l : List Bool) :
    (closeOutputs f l).length = l.length :=
  closeOutputsFrom_length f l 0

/-- Unique parsing around a separator character: if the prefixes before
the first occurrence of `c` are `c`-free, the decomposition is unique. -/
theorem append_cons_sep_inj (c : Char) :
    ∀ (x x' y y' : List Char), c ∉ x → c ∉ x' →
      x ++ c :: y = x' ++ c :: y' → x = x' ∧ y = y' := by
  intro x
  induction x with
  | nil =>
    intro x' y y' _ hx' h
    cases x' with
    | nil => exact ⟨rfl, List.cons_injective h⟩
    | cons a t =>
      exfalso
      have hca : c = a := (List.cons.injEq _ _ _ _ ▸ h).1
      exact hx' (hca ▸ List.mem_cons_self a t)
  | cons a t ih =>
    intro x' y y' hx hx' h
    cases x' with
    | nil =>
      exfalso
      have hac : a = c := (List.cons.injEq _ _ _ _ ▸ h).1
      exact hx (hac ▸ List.mem_cons_self a t)
    | cons a' t' =>
      have h1 : a = a' := (List.cons.injEq _ _ _ _ ▸ h).1
      have h2 : t ++ c :: y = t' ++ c :: y' := (List.cons.injEq _ _ _ _ ▸ h).2
      have hmt : c ∉ t := fun hm => hx (List.mem_cons_of_mem a hm)
      have hmt' : c ∉ t' := fun hm => hx' (List.mem_cons_of_mem a' hm)
      obtain ⟨ht, hy⟩ := ih t' y y' hmt hmt' h2
      exact ⟨by rw [h1, ht], hy⟩

/-- The character list underlying the address-rule derivation string. -/
theorem addrDerivation_data (s : SettingsId) :
    (addrDerivation s).data =
      "detectmate/".data ++ (s.component_type.data ++
        '|' :: ((orEmpty s.manager_addr).data ++
          '|' :: (orEmpty s.engine_addr).data)) := by
  simp [addrDerivation, String.data_append, List.append_assoc]

/-- Behaviour of `reconfigure` once a non-empty payload has parsed as
JSON: update, then save only under `persist`. -/
theorem reconfigure_parsed {D C : Type} (pj : String → Option D)
    (sf : Option String) (st : CMState D C) (cmd : Option String) (data : D)
    (hp : (reconfParse cmd).1 ≠ "") (hj : pj (reconfParse cmd).1 = some data) :
    reconfigure pj sf (some st) cmd =
      (match cmUpdate st data with
       | (st', .ok ()) =>
         if (reconfParse cmd).2 then
           match sf with
           | some e => ⟨some st', "reconfigure: error - " ++ e, some data, true⟩
           | none => ⟨some st', "reconfigure: ok", some data, true⟩
         else ⟨some st', "reconfigure: ok", some data, false⟩
       | (st', .error e) =>
         ⟨some st', "reconfigure: error - " ++ e, some data, false⟩) := by
  have hne : ((reconfParse cmd).1 == "") = false := beq_eq_false_iff_ne.mpr hp
  unfold reconfigure
  simp only [hne, Bool.false_eq_true, if_false, hj]

/-! ## Claim theorems -/

/-- C10: if a decorated handler raises `TypeError` while executing with
the full command string, the dispatcher cannot distinguish this from an
arity mismatch and invokes the same handler a second time with no
arguments; the request executes its handler twice and the reply is the
second invocation's result (or `"error: <message>"` if the
zero-argument call also raises), independent of the first failure's
message. -/
theorem dispatch_retries_after_handler_type_error
    (handlers : String → Option Handler) (cmd : String) (h : Handler)
    (m : String) (hreg : handlers (pyVerb cmd) = some h)
    (hte : h.withArg cmd = .exc true m) :
    (handleCmdCount handlers cmd).2 = 2 ∧
    (handleCmdCount handlers cmd).1 =
      (match h.noArg with
       | .ok r => r
       | .exc _ m2 => "error: " ++ m2) := by
  unfold handleCmdCount
  simp only [hreg, hte]
  cases hn : h.noArg <;> simp [hn]

/-- Witness for C10: a handler whose one-argument call raises
`TypeError` runs twice, and the reply is the second call's result. -/
theorem dispatch_retries_after_handler_type_error_witness :
    (handleCmdCount
      (fun _ => some ⟨fun _ => .exc true "boom", .ok "second"⟩) "h x").2 = 2 ∧
    (handleCmdCount
      (fun _ => some ⟨fun _ => .exc true "boom", .ok "second"⟩) "h x").1 =
      "second" :=
  dispatch_retries_after_handler_type_error
    (fun _ => some ⟨fun _ => .exc true "boom", .ok "second"⟩)
    "h x" ⟨fun _ => .exc true "boom", .ok "second"⟩ "boom" rfl rfl

/-- C6 counterexample: with the lifecycle event set, a request whose
verb is `stop` but which carries a payload is *not* ignored silently —
the loop's deduplication compares the whole trimmed command with
`"stop"`, so `"stop now"` is dispatched and replied to. -/
theorem manager_duplicate_stop_with_payload_replied :
    managerLoopStep (fun _ => none) true false (.msg "stop now") =
      ⟨some "unknown command: stop now", true, false⟩ := by
  decide

/-- C6 amended: with the lifecycle event set, a request whose *entire*
trimmed command lower-cases to exactly `"stop"` is ignored silently —
no dispatch, no reply, and the worker continues. -/
theorem manager_ignores_exact_duplicate_stop
    (handlers : String → Option Handler) (sendFails : Bool) (raw : String)
    (hdup : pyLower (pyStrip raw) = "stop") :
    managerLoopStep handlers true sendFails (.msg raw) = ⟨none, false, false⟩ := by
  simp [managerLoopStep, hdup]

/-- Witness for C6 amended: `" Stop "` while stopping is ignored. -/
theorem manager_ignores_exact_duplicate_stop_witness :
    managerLoopStep (fun _ => none) true true (.msg " Stop ") =
      ⟨none, false, false⟩ :=
  manager_ignores_exact_duplicate_stop (fun _ => none) true " Stop " (by decide)

/-- C2: in each engine worker iteration, an empty or absent payload is
skipped without invoking the processor and without any send; a
processor exception (recognized or not) drops only that message and the
loop continues; a `None` processor result causes no send; and with
output sockets configured the result is sent to them in configuration
order, each output getting its own outcome — a send error on one output
skips only that output while the others are still attempted, and the
worker keeps running. -/
theorem engine_step_resilience (running stopSet : Bool)
    (proc : List Nat → PRes) (outs : List Bool) (pairOk : Bool) :
    (∀ raw, raw = none ∨ raw = some [] →
      engineRunStep running stopSet proc outs pairOk (.recvOk raw) =
        ⟨false, [], false, false⟩) ∧
    (∀ bs m, bs ≠ [] → proc bs = .procErr m →
      engineRunStep running stopSet proc outs pairOk (.recvOk (some bs)) =
        ⟨true, [], false, false⟩) ∧
    (∀ bs m, bs ≠ [] → proc bs = .otherErr m →
      engineRunStep running stopSet proc outs pairOk (.recvOk (some bs)) =
        ⟨true, [], false, false⟩) ∧
    (∀ bs, bs ≠ [] → proc bs = .pok none →
      engineRunStep running stopSet proc outs pairOk (.recvOk (some bs)) =
        ⟨true, [], false, false⟩) ∧
    (∀ bs out, bs ≠ [] → proc bs = .pok (some out) → outs ≠ [] →
      engineRunStep running stopSet proc outs pairOk (.recvOk (some bs)) =
        ⟨true, outs, false, false⟩) := by
  refine ⟨?_, ?_, ?_, ?_, ?_⟩
  · rintro raw (rfl | rfl) <;> simp [engineRunStep]
  · intro bs m hne hp
    simp [engineRunStep, List.length_eq_zero, hne, hp]
  · intro bs m hne hp
    simp [engineRunStep, List.length_eq_zero, hne, hp]
  · intro bs hne hp
    simp [engineRunStep, List.length_eq_zero, hne, hp]
  · intro bs out hne hp houts
    simp [engineRunStep, List.length_eq_zero, hne, hp,
      List.isEmpty_iff, houts, sendToOutputs_eq]

/-- Witness for C2: a two-output engine where the first send fails:
both outputs are attempted, in order, and the step does not break. -/
theorem engine_step_resilience_witness :
    engineRunStep true false (fun bs => .pok (some bs)) [false, true] true
      (.recvOk (some [7])) = ⟨true, [false, true], false, false⟩ :=
  (engine_step_resilience true false (fun bs => .pok (some bs))
    [false, true] true).2.2.2.2 [7] [7] (by decide) rfl (by decide)

/-- C8: calling `start` twice on the same engine without an intervening
stop returns `"engine started"` then `"engine already running"`, with
the second call spawning no additional worker; and sending the `stop`
command twice to the same service returns `"engine stopped"` (or an
error string) the first time and `"already stopping or stopped"` the
second time, the second call not invoking `Engine.stop` again. -/
theorem double_start_double_stop (n : Nat) (env : StopEnv) :
    (engineStart (initEngine n)).2 = .ok "engine started" ∧
    (engineStart (initEngine n)).1.workersSpawned = 1 ∧
    engineStart (engineStart (initEngine n)).1 =
      ((engineStart (initEngine n)).1, .ok "engine already running") ∧
    (∀ sv : ServiceSt, sv.stopEventSet = false →
      ((serviceStop env sv).reply = "engine stopped" ∨
        ∃ m, (serviceStop env sv).reply = "error: failed to stop engine - " ++ m) ∧
      (serviceStop env sv).engineStopCalled = true ∧
      (serviceStop env (serviceStop env sv).st).reply =
        "already stopping or stopped" ∧
      (serviceStop env (serviceStop env sv).st).engineStopCalled = false) := by
  refine ⟨rfl, rfl, rfl, ?_⟩
  intro sv hsv
  rcases h : engineStop env sv.eng with ⟨e', r⟩
  cases r with
  | ok u =>
    cases u
    have hstep : serviceStop env sv = ⟨⟨true, e'⟩, "engine stopped", true⟩ := by
      unfold serviceStop
      rw [hsv]
      simp only [Bool.false_eq_true, if_false]
      rw [show ({ sv with stopEventSet := true } : ServiceSt).eng = sv.eng from rfl,
        h]
    rw [hstep]
    exact ⟨Or.inl rfl, rfl, rfl, rfl⟩
  | error ex =>
    have hstep : serviceStop env sv =
        ⟨⟨true, e'⟩, "error: failed to stop engine - " ++ ex.message, true⟩ := by
      unfold serviceStop
      rw [hsv]
      simp only [Bool.false_eq_true, if_false]
      rw [show ({ sv with stopEventSet := true } : ServiceSt).eng = sv.eng from rfl,
        h]
    rw [hstep]
    exact ⟨Or.inr ⟨ex.message, rfl⟩, rfl, rfl, rfl⟩

/-- Witness for C8 at a concrete service whose engine is running and
stops cleanly. -/
theorem double_start_double_stop_witness :
    (serviceStop ⟨false, "", fun _ => false, true⟩
      ⟨false, (engineStart (initEngine 1)).1⟩).reply = "engine stopped" ∨
    ∃ m, (serviceStop ⟨false, "", fun _ => false, true⟩
      ⟨false, (engineStart (initEngine 1)).1⟩).reply =
        "error: failed to stop engine - " ++ m :=
  ((double_start_double_stop 1 ⟨false, "", fun _ => false, true⟩).2.2.2
    ⟨false, (engineStart (initEngine 1)).1⟩ rfl).1

/-- C9: the engine state machine does *not* admit `stopped → running`
via `start` after a completed stop: the worker `Thread` object created
in `__init__` is reused, and a Python thread can only be started once,
so the second `start` raises `RuntimeError` instead of returning
`"engine started"`, and no second worker is ever spawned (the stop
latch also remains set).  Evaluation of the model at the failing input
`start(); stop(); start()`. -/
theorem engine_restart_after_stop_raises :
    ((engineStop ⟨false, "", fun _ => false, true⟩
        (engineStart (initEngine 0)).1).1.running = false) ∧
    ((engineStop ⟨false, "", fun _ => false, true⟩
        (engineStart (initEngine 0)).1).1.threadAlive = false) ∧
    ((engineStop ⟨false, "", fun _ => false, true⟩
        (engineStart (initEngine 0)).1).1.stopSet = true) ∧
    (engineStart (engineStop ⟨false, "", fun _ => false, true⟩
        (engineStart (initEngine 0)).1).1).2 =
      .error "threads can only be started once" ∧
    (engineStart (engineStop ⟨false, "", fun _ => false, true⟩
        (engineStart (initEngine 0)).1).1).1.workersSpawned = 1 :=
  ⟨rfl, rfl, rfl, rfl, rfl⟩

/-- C7: `Engine.stop` on a non-running engine returns immediately with
no side effects; on a running engine it clears the running flag and
sets the stop latch, then closes the input socket — raising an
`EngineException` wrapping the underlying cause if that close fails —
then closes every output socket (a failure on one output does not
prevent closing the others), then joins the worker, raising an
`EngineException` if the thread is still alive when the join timeout
expires and returning `None` otherwise. -/
theorem engine_stop_spec (env : StopEnv) (s : EngineSt) :
    (s.running = false → engineStop env s = (s, .ok ())) ∧
    (s.running = true → env.inputCloseFails = true →
      engineStop env s =
        ({ s with running := false, stopSet := true },
         .error (.closeInput ("Failed to close engine socket: " ++
           env.inputCloseCause)))) ∧
    (s.running = true → env.inputCloseFails = false →
      (engineStop env s).1.running = false ∧
      (engineStop env s).1.stopSet = true ∧
      (engineStop env s).1.inputClosed = true ∧
      (engineStop env s).1.outClosed.length = s.outClosed.length ∧
      (∀ i, (engineStop env s).1.outClosed[i]? =
        (s.outClosed[i]?).map (fun c => c || !env.outCloseFails i)) ∧
      ((s.threadAlive && !env.threadExits) = true →
        (engineStop env s).2 = .error (.joinFail
          ("Failed to join engine thread: " ++
            "Engine thread failed to stop within timeout"))) ∧
      ((s.threadAlive && !env.threadExits) = false →
        (engineStop env s).2 = .ok ())) := by
  refine ⟨?_, ?_, ?_⟩
  · intro hr
    unfold engineStop
    rw [hr]
    simp
  · intro hr hc
    unfold engineStop
    rw [hr, hc]
    simp
  · intro hr hc
    unfold engineStop
    rw [hr, hc]
    cases halive : s.threadAlive && !env.threadExits <;>
      simp [halive, closeOutputs_length, closeOutputs_getElem?]

/-- Witness for C7: stopping a never-started engine is a no-op, and
stopping a running two-output engine whose first output close fails
still closes the second output and succeeds. -/
theorem engine_stop_spec_witness :
    engineStop ⟨false, "c", fun i => i = 0, true⟩ (initEngine 2) =
      (initEngine 2, .ok ()) ∧
    (engineStop ⟨false, "c", fun i => i = 0, true⟩
      (engineStart (initEngine 2)).1).1.outClosed[1]? = some true :=
  ⟨(engine_stop_spec ⟨false, "c", fun i => i = 0, true⟩ (initEngine 2)).1 rfl,
   by
    have h := ((engine_stop_spec ⟨false, "c", fun i => i = 0, true⟩
      (engineStart (initEngine 2)).1).2.2 rfl rfl).2.2.2.2.1 1
    rw [h]
    decide⟩

/-- C4: with a schema, `ConfigManager.update` on a mapping that fails
schema validation propagates the validation error and leaves the
in-memory parameters exactly as they were; the `reconfigure` command
surfaces such a failure as `"reconfigure: error - <msg>"` while the
stored parameters remain the pre-call value (and nothing is saved). -/
theorem update_validation_failure_preserves_params {D C : Type}
    (st : CMState D C) (v : D → Except String C) (new : D) (e : String)
    (hs : st.schema = some v) (hv : v new = .error e) :
    cmUpdate st new = (st, .error e) ∧
    (∀ (pj : String → Option D) (sf : Option String) (cmd : Option String),
      (reconfParse cmd).1 ≠ "" → pj (reconfParse cmd).1 = some new →
      (reconfigure pj sf (some st) cmd).reply = "reconfigure: error - " ++ e ∧
      (reconfigure pj sf (some st) cmd).cm = some st ∧
      (reconfigure pj sf (some st) cmd).saveCalled = false) := by
  have hupd : cmUpdate st new = (st, .error e) := by
    simp [cmUpdate, hs, hv]
  refine ⟨hupd, ?_⟩
  intro pj sf cmd hp hj
  rw [reconfigure_parsed pj sf st cmd new hp hj, hupd]
  exact ⟨rfl, rfl, rfl⟩

/-- Witness for C4: a schema that rejects everything leaves the stored
raw parameters in place and yields the error reply. -/
theorem update_validation_failure_witness :
    cmUpdate (⟨some (fun _ => .error "bad"), some (.inr "old")⟩ :
      CMState String Unit) "x" =
      ((⟨some (fun _ => .error "bad"), some (.inr "old")⟩ :
        CMState String Unit), .error "bad") ∧
    (reconfigure (fun _ => some "x") none
      (some (⟨some (fun _ => .error "bad"), some (.inr "old")⟩ :
        CMState String Unit))
      (some "reconfigure cfg")).reply = "reconfigure: error - bad" :=
  ⟨(update_validation_failure_preserves_params
      (⟨some (fun _ => .error "bad"), some (.inr "old")⟩ : CMState String Unit)
      (fun _ => .error "bad") "x" "bad" rfl rfl).1,
   ((update_validation_failure_preserves_params
      (⟨some (fun _ => .error "bad"), some (.inr "old")⟩ : CMState String Unit)
      (fun _ => .error "bad") "x" "bad" rfl rfl).2
      (fun _ => some "x") none (some "reconfigure cfg") (by decide) rfl).1⟩

/-- C5: the `reconfigure` command replies
`"reconfigure: no config manager configured"` with no ConfigManager;
`"reconfigure: no-op (no payload)"` when no payload follows the verb
and the optional `persist` keyword; `"reconfigure: invalid JSON"` when
the payload does not parse; otherwise it calls `update` with the
parsed value and calls `save` exactly when the literal `persist`
keyword was given and `update` succeeded, replying `"reconfigure: ok"`
on success and `"reconfigure: error - <msg>"` if `update` or `save`
raises; in particular without `persist` the config file is never
written. -/
theorem reconfigure_command_spec {D C : Type} (pj : String → Option D)
    (sf : Option String) (st : CMState D C) (cmd : Option String) :
    (reconfigure pj sf (none : Option (CMState D C)) cmd =
      ⟨none, "reconfigure: no config manager configured", none, false⟩) ∧
    ((reconfParse cmd).1 = "" →
      reconfigure pj sf (some st) cmd =
        ⟨some st, "reconfigure: no-op (no payload)", none, false⟩) ∧
    ((reconfParse cmd).1 ≠ "" → pj (reconfParse cmd).1 = none →
      reconfigure pj sf (some st) cmd =
        ⟨some st, "reconfigure: invalid JSON", none, false⟩) ∧
    (∀ data, (reconfParse cmd).1 ≠ "" → pj (reconfParse cmd).1 = some data →
      (reconfigure pj sf (some st) cmd).updateCalledWith = some data ∧
      ((reconfParse cmd).2 = false →
        (reconfigure pj sf (some st) cmd).saveCalled = false) ∧
      (∀ st', cmUpdate st data = (st', .ok ()) →
        (reconfigure pj sf (some st) cmd).cm = some st' ∧
        (reconfigure pj sf (some st) cmd).saveCalled = (reconfParse cmd).2 ∧
        (sf = none →
          (reconfigure pj sf (some st) cmd).reply = "reconfigure: ok") ∧
        ((reconfParse cmd).2 = false →
          (reconfigure pj sf (some st) cmd).reply = "reconfigure: ok") ∧
        (∀ m, (reconfParse cmd).2 = true → sf = some m →
          (reconfigure pj sf (some st) cmd).reply =
            "reconfigure: error - " ++ m)) ∧
      (∀ st' e, cmUpdate st data = (st', .error e) →
        (reconfigure pj sf (some st) cmd).cm = some st' ∧
        (reconfigure pj sf (some st) cmd).saveCalled = false ∧
        (reconfigure pj sf (some st) cmd).reply =
          "reconfigure: error - " ++ e)) := by
  refine ⟨rfl, ?_, ?_, ?_⟩
  · intro hp
    unfold reconfigure
    simp [hp]
  · intro hp hj
    have hne : ((reconfParse cmd).1 == "") = false := beq_eq_false_iff_ne.mpr hp
    unfold reconfigure
    simp [hne, hj]
  · intro data hp hj
    have heq := reconfigure_parsed pj sf st cmd data hp hj
    rcases hu : cmUpdate st data with ⟨stU, r⟩
    rw [hu] at heq
    cases r with
    | ok u =>
      cases u
      cases hper : (reconfParse cmd).2 with
      | false =>
        rw [hper] at heq
        simp only [Bool.false_eq_true, if_false] at heq
        rw [heq]
        refine ⟨rfl, fun _ => rfl, ?_, ?_⟩
        · intro st'' h''
          have hst : stU = st'' := congrArg Prod.fst h''
          subst hst
          exact ⟨rfl, rfl, fun _ => rfl, fun _ => rfl,
            fun m hm _ => Bool.noConfusion hm⟩
        · intro st'' e h''
          exact Except.noConfusion (congrArg Prod.snd h'')
      | true =>
        rw [hper] at heq
        simp only [if_true] at heq
        cases sf with
        | none =>
          rw [heq]
          refine ⟨rfl, fun hf => Bool.noConfusion hf, ?_, ?_⟩
          · intro st'' h''
            have hst : stU = st'' := congrArg Prod.fst h''
            subst hst
            exact ⟨rfl, rfl, fun _ => rfl, fun hf => Bool.noConfusion hf,
              fun m _ hm => Option.noConfusion hm⟩
          · intro st'' e h''
            exact Except.noConfusion (congrArg Prod.snd h'')
        | some msg =>
          rw [heq]
          refine ⟨rfl, fun hf => Bool.noConfusion hf, ?_, ?_⟩
          · intro st'' h''
            have hst : stU = st'' := congrArg Prod.fst h''
            subst hst
            refine ⟨rfl, rfl, fun hn => Option.noConfusion hn,
              fun hf => Bool.noConfusion hf, ?_⟩
            intro m _ hm
            have hmsg : msg = m := by injection hm
            rw [hmsg]
          · intro st'' e h''
            exact Except.noConfusion (congrArg Prod.snd h'')
    | error ex =>
      rw [heq]
      refine ⟨rfl, fun _ => rfl, ?_, ?_⟩
      · intro st'' h''
        exact Except.noConfusion (congrArg Prod.snd h'')
      · intro st'' e h''
        have hst : stU = st'' := congrArg Prod.fst h''
        subst hst
        have hex : ex = e := by
          have h2 : Except.error (ε := String) (α := Unit) ex = .error e :=
            congrArg Prod.snd h''
          injection h2
        rw [hex]
        exact ⟨rfl, rfl, rfl⟩

/-- Witness for C5: `"reconfigure persist cfg"` against a schemaless
manager parses the payload, updates, saves, and replies ok; without
`persist` nothing is saved. -/
theorem reconfigure_command_spec_witness :
    (reconfigure (fun s => some s) none
      (some (⟨none, none⟩ : CMState String Unit))
      (some "reconfigure persist cfg")).reply = "reconfigure: ok" ∧
    (reconfigure (fun s => some s) none
      (some (⟨none, none⟩ : CMState String Unit))
      (some "reconfigure persist cfg")).saveCalled = true ∧
    (reconfigure (fun s => some s) none
      (some (⟨none, none⟩ : CMState String Unit))
      (some "reconfigure cfg")).saveCalled = false := by
  have h1 := ((reconfigure_command_spec (fun s : String => some s) none
    (⟨none, none⟩ : CMState String Unit)
    (some "reconfigure persist cfg")).2.2.2 "cfg" (by decide) rfl).2.2.1
    ⟨none, some (.inr "cfg")⟩ rfl
  have h2 := ((reconfigure_command_spec (fun s : String => some s) none
    (⟨none, none⟩ : CMState String Unit)
    (some "reconfigure cfg")).2.2.2 "cfg" (by decide) rfl).2.1 (by decide)
  refine ⟨h1.2.2.1 rfl, ?_, h2⟩
  rw [h1.2.1]
  decide

/-- C3 counterexample: two Settings with different derivation inputs
(`component_type` `"a|b"`/`manager_addr` `"c"` versus `"a"`/`"b|c"`)
derive the *same* string `"detectmate/a|b|c|d"`, hence the same
component id under any UUIDv5 digest — a change to the inputs does not
always change the id. -/
theorem component_id_collision_distinct_inputs :
    addrDerivation ⟨none, none, "a|b", some "c", some "d"⟩ =
      addrDerivation ⟨none, none, "a", some "b|c", some "d"⟩ ∧
    (ensureComponentId (fun s => s)
        ⟨none, none, "a|b", some "c", some "d"⟩).component_id =
      (ensureComponentId (fun s => s)
        ⟨none, none, "a", some "b|c", some "d"⟩).component_id ∧
    ("a|b" : String) ≠ "a" := by
  refine ⟨rfl, rfl, ?_⟩
  decide

/-- C3 amended: `component_id` is always populated after validation, by
the first applicable rule (explicit id kept; else UUIDv5 over
`detectmate/<type>/<name>`; else UUIDv5 over
`detectmate/<type>|<manager_addr>|<engine_addr>`); equal derivation
inputs give equal ids, and — provided the fields are free of the `'|'`
separator and the digest is injective — a change to the address-rule
inputs changes the id. -/
theorem component_id_derivation_rules
    (u : String → String) (hu : Function.Injective u) (s1 s2 : SettingsId)
    (h1id : pyTruthyOpt s1.component_id = false)
    (h1nm : pyTruthyOpt s1.component_name = false)
    (h2id : pyTruthyOpt s2.component_id = false)
    (h2nm : pyTruthyOpt s2.component_name = false)
    (hb1t : '|' ∉ s1.component_type.data)
    (hb1m : '|' ∉ (orEmpty s1.manager_addr).data)
    (hb2t : '|' ∉ s2.component_type.data)
    (hb2m : '|' ∉ (orEmpty s2.manager_addr).data) :
    (∀ s : SettingsId, ((ensureComponentId u s).component_id).isSome = true) ∧
    (∀ s : SettingsId, pyTruthyOpt s.component_id = true →
      ensureComponentId u s = s) ∧
    (∀ s : SettingsId, pyTruthyOpt s.component_id = false →
      pyTruthyOpt s.component_name = true →
      (ensureComponentId u s).component_id = some (u (nameDerivation s))) ∧
    (∀ s : SettingsId, pyTruthyOpt s.component_id = false →
      pyTruthyOpt s.component_name = false →
      (ensureComponentId u s).component_id = some (u (addrDerivation s))) ∧
    ((ensureComponentId u s1).component_id =
        (ensureComponentId u s2).component_id ↔
      (s1.component_type = s2.component_type ∧
       orEmpty s1.manager_addr = orEmpty s2.manager_addr ∧
       orEmpty s1.engine_addr = orEmpty s2.engine_addr)) := by
  refine ⟨?_, ?_, ?_, ?_, ?_⟩
  · intro s
    unfold ensureComponentId
    cases hid : pyTruthyOpt s.component_id with
    | true =>
      simp only [if_true]
      unfold pyTruthyOpt at hid
      cases hcid : s.component_id with
      | none => rw [hcid] at hid; exact Bool.noConfusion hid
      | some v => rfl
    | false =>
      cases hnm : pyTruthyOpt s.component_name <;>
        simp [hid, hnm]
  · intro s h
    simp [ensureComponentId, h]
  · intro s h1 h2
    simp [ensureComponentId, h1, h2]
  · intro s h1 h2
    simp [ensureComponentId, h1, h2]
  · have e1 : (ensureComponentId u s1).component_id =
        some (u (addrDerivation s1)) := by
      simp [ensureComponentId, h1id, h1nm]
    have e2 : (ensureComponentId u s2).component_id =
        some (u (addrDerivation s2)) := by
      simp [ensureComponentId, h2id, h2nm]
    rw [e1, e2]
    constructor
    · intro h
      have hderiv : addrDerivation s1 = addrDerivation s2 :=
        hu (Option.some.inj h)
      have hdata := congrArg String.data hderiv
      rw [addrDerivation_data, addrDerivation_data] at hdata
      have hrest := List.append_cancel_left hdata
      have hp1 : '|' ∉ s1.component_type.data := hb1t
      obtain ⟨ht, hrest2⟩ :=
        append_cons_sep_inj '|' s1.component_type.data s2.component_type.data
          _ _ hp1 hb2t hrest
      obtain ⟨hm, he⟩ :=
        append_cons_sep_inj '|' (orEmpty s1.manager_addr).data
          (orEmpty s2.manager_addr).data _ _ hb1m hb2m hrest2
      exact ⟨String.ext ht, String.ext hm, String.ext he⟩
    · rintro ⟨ht, hm, he⟩
      unfold addrDerivation
      rw [ht, hm, he]

/-- Witness for C3 amended: with an injective digest and
separator-free fields, changing the engine address changes the id. -/
theorem component_id_derivation_rules_witness :
    (ensureComponentId (fun s => s)
        ⟨none, none, "core", some "m", some "e1"⟩).component_id ≠
      (ensureComponentId (fun s => s)
        ⟨none, none, "core", some "m", some "e2"⟩).component_id := by
  intro h
  have hiff := (component_id_derivation_rules (fun s => s)
    (fun _ _ hx => hx)
    ⟨none, none, "core", some "m", some "e1"⟩
    ⟨none, none, "core", some "m", some "e2"⟩
    rfl rfl rfl rfl (by decide) (by decide) (by decide) (by decide)).2.2.2.2
  have hfields := hiff.mp h
  exact absurd hfields.2.2 (by decide)

/-- C1 counterexample: a received request *can* yield zero replies —
with the lifecycle event set, a command that trims to `"stop"` is
skipped before dispatch and nothing is sent back. -/
theorem manager_duplicate_stop_zero_replies :
    managerLoopStep (fun _ => none) true false (.msg "stop") =
      ⟨none, false, false⟩ := by
  decide

/-- C1 amended: for every received command *except* a duplicate stop
(one that trims and lower-cases to exactly `"stop"` while the lifecycle
event is set), the worker produces exactly one reply, computed by the
dispatch rules: a registered handler's return value (retried without
arguments on `TypeError`), `"error: <message>"` if the handler raises
otherwise, the built-in `"pong"` for `ping`, and
`"unknown command: <cmd>"` otherwise; a handler failure never breaks
the worker loop. -/
theorem manager_step_exactly_one_reply
    (handlers : String → Option Handler) (stopSet sendFails : Bool)
    (raw : String)
    (hnd : ¬(stopSet = true ∧ pyLower (pyStrip raw) = "stop")) :
    (managerLoopStep handlers stopSet sendFails (.msg raw)).reply =
      some (handleCmd handlers (pyStrip raw)) ∧
    (managerLoopStep handlers stopSet sendFails (.msg raw)).dispatched = true ∧
    (sendFails = false →
      (managerLoopStep handlers stopSet sendFails (.msg raw)).breaks = false) ∧
    (∀ h r, handlers (pyVerb (pyStrip raw)) = some h →
      h.withArg (pyStrip raw) = .ok r →
      handleCmd handlers (pyStrip raw) = r) ∧
    (∀ h m, handlers (pyVerb (pyStrip raw)) = some h →
      h.withArg (pyStrip raw) = .exc false m →
      handleCmd handlers (pyStrip raw) = "error: " ++ m) ∧
    (∀ h m, handlers (pyVerb (pyStrip raw)) = some h →
      h.withArg (pyStrip raw) = .exc true m →
      handleCmd handlers (pyStrip raw) =
        (match h.noArg with
         | .ok r => r
         | .exc _ m2 => "error: " ++ m2)) ∧
    (handlers (pyVerb (pyStrip raw)) = none → pyVerb (pyStrip raw) = "ping" →
      handleCmd handlers (pyStrip raw) = "pong") ∧
    (handlers (pyVerb (pyStrip raw)) = none → pyVerb (pyStrip raw) ≠ "ping" →
      handleCmd handlers (pyStrip raw) =
        "unknown command: " ++ pyStrip raw) := by
  have hguard : (stopSet && pyLower (pyStrip raw) == "stop") = false := by
    cases hs : stopSet with
    | false => rfl
    | true =>
      simp only [Bool.true_and]
      exact beq_eq_false_iff_ne.mpr (fun heq => hnd ⟨hs, heq⟩)
  refine ⟨?_, ?_, ?_, ?_, ?_, ?_, ?_, ?_⟩
  · simp [managerLoopStep, hguard]
  · simp [managerLoopStep, hguard]
  · intro hsf
    simp [managerLoopStep, hguard, hsf]
  · intro h r h1 h2
    simp [handleCmd, handleCmdCount, h1, h2]
  · intro h m h1 h2
    simp [handleCmd, handleCmdCount, h1, h2]
  · intro h m h1 h2
    simp only [handleCmd, handleCmdCount, h1, h2]
    cases hn : h.noArg <;> simp [hn]
  · intro h1 h2
    rw [h2] at h1
    simp [handleCmd, handleCmdCount, h2, h1]
  · intro h1 h2
    simp [handleCmd, handleCmdCount, h1, h2]

/-- Witness for C1 amended: a plain `ping` with no handler registered
gets exactly the reply `"pong"`. -/
theorem manager_step_exactly_one_reply_witness :
    (managerLoopStep (fun _ => none) false false (.msg "ping")).reply =
      some "pong" := by
  have h := manager_step_exactly_one_reply (fun _ => none) false false "ping"
    (by decide)
  rw [h.1, h.2.2.2.2.2.2.1 rfl (by decide)]

end DetectMate
